import Mathlib

/-!
Shallow embedding of the Sciclops plate-handling driver
(src/sciclops_driver.py) and proofs checking the natural-language
specification against it.

The embedding translates, from the source:
  - the plate-type catalog (load_plate_info) and labware table (load_labware),
  - the transport layer (send_command, get_error, check_complete),
  - the choreography operations (get_plate, remove_lid, replace_lid,
    plate_to_stack, plate_to_trash, lidnest_to_trash) as functions from a
    labware state to an Outcome: the list of motion primitives issued, the
    final labware state, and an optional Python-exception marker (the key of
    the failing dictionary lookup), since several code paths raise KeyError.
Coordinates and plate heights are exact decimal multiples of one
ten-thousandth, so they are embedded as integers scaled by ten thousand;
scaling by a positive constant preserves every equality and order
comparison the driver performs on them, so this is faithful.
-/

/-- A four-axis coordinate in units of one ten-thousandth, fields in the
order used by the labware table. -/
structure Pos4 where
  Z : Int
  R : Int
  Y : Int
  P : Int
deriving DecidableEq, Repr

/-- Per-plate-type physical constants, from load_plate_info. -/
structure PlateInfo where
  height : Int
  grab_exchange : Int
  grab_lid_exchange : Int
  grab_tower : Int
  grab_lid_tower : Int
  grab_lid_nest : Int
deriving DecidableEq, Repr

/-- The plate-type catalog from load_plate_info; the height 16.2562 or
15.2762 is stored scaled by ten thousand; none models a KeyError on an
unknown plate-type key. -/
def plate_info : String → Option PlateInfo
  | "96_well" => some ⟨162562, -30, -21, -18, -13, -12⟩
  | "pcr_plate" => some ⟨152762, -28, 0, -17, 0, 0⟩
  | _ => none

/-- The five stacking towers of the labware table. -/
inductive TowerName
  | t1 | t2 | t3 | t4 | t5
deriving DecidableEq, Repr

/-- The two lid nests of the labware table. -/
inductive NestName
  | n1 | n2
deriving DecidableEq, Repr

/-- Base position of each tower (load_labware). -/
def towerPos : TowerName → Pos4
  | .t1 => ⟨235188, 1335000, 1719895, 86648⟩
  | .t2 => ⟨235188, 1513000, 1714872, 84943⟩
  | .t3 => ⟨235188, 1695000, 1714810, 124716⟩
  | .t4 => ⟨235188, 1875000, 1694470, 59091⟩
  | .t5 => ⟨235188, 2054000, 1712082, 108807⟩

/-- Base position of each lid nest (load_labware). -/
def nestPos : NestName → Pos4
  | .n1 => ⟨235188, 1692706, 257535, 102159⟩
  | .n2 => ⟨235188, 2012665, 257535, 80909⟩

/-- Exchange slot position (load_labware). -/
def exchangePos : Pos4 :=
  ⟨235188, 1092741, 327484, 1008955⟩

/-- Neutral position (load_labware); differs from the exchange only in P. -/
def neutralPos : Pos4 :=
  ⟨235188, 1092741, 327484, 982955⟩

/-- Trash position (load_labware). -/
def trashPos : Pos4 :=
  ⟨235188, 2592688, 627497, 982670⟩

/-- Mutable data of one tower slot (load_labware; pos is the constant above). -/
structure TowerData where
  type : String
  howmany : Int
  size : List Int
  has_lid : Bool
deriving DecidableEq, Repr

/-- Mutable data of one lid-nest slot. -/
structure NestData where
  type : String
  howmany : Int
deriving DecidableEq, Repr

/-- Mutable data of the exchange slot. -/
structure ExchangeData where
  type : String
  howmany : Int
  size : List Int
  has_lid : Bool
deriving DecidableEq, Repr

/-- The mutable inventory model: the data of every tracked slot. -/
structure Labware where
  tower1 : TowerData
  tower2 : TowerData
  tower3 : TowerData
  tower4 : TowerData
  tower5 : TowerData
  lidnest1 : NestData
  lidnest2 : NestData
  exchange : ExchangeData
deriving DecidableEq, Repr

/-- Read a tower slot by name. -/
def Labware.tower (lw : Labware) : TowerName → TowerData
  | .t1 => lw.tower1
  | .t2 => lw.tower2
  | .t3 => lw.tower3
  | .t4 => lw.tower4
  | .t5 => lw.tower5

/-- Update a tower slot by name. -/
def Labware.updateTower (lw : Labware) : TowerName → (TowerData → TowerData) → Labware
  | .t1, f => { lw with tower1 := f lw.tower1 }
  | .t2, f => { lw with tower2 := f lw.tower2 }
  | .t3, f => { lw with tower3 := f lw.tower3 }
  | .t4, f => { lw with tower4 := f lw.tower4 }
  | .t5, f => { lw with tower5 := f lw.tower5 }

/-- Read a lid-nest slot by name. -/
def Labware.nest (lw : Labware) : NestName → NestData
  | .n1 => lw.lidnest1
  | .n2 => lw.lidnest2

/-- Update a lid-nest slot by name. -/
def Labware.updateNest (lw : Labware) : NestName → (NestData → NestData) → Labware
  | .n1, f => { lw with lidnest1 := f lw.lidnest1 }
  | .n2, f => { lw with lidnest2 := f lw.lidnest2 }

/-- Set the lid-present flag of the exchange slot. -/
def Labware.setExchangeLid (lw : Labware) (b : Bool) : Labware :=
  { lw with exchange := { lw.exchange with has_lid := b } }

/-- The initial labware table hard-coded in load_labware. -/
def initial_labware : Labware where
  tower1 := ⟨"pcr_plate", 1, [10, 11, 12], true⟩
  tower2 := ⟨"96_well", 0, [10, 11, 12], true⟩
  tower3 := ⟨"96_well", 0, [10, 11, 12], true⟩
  tower4 := ⟨"96_well", 0, [10, 11, 12], true⟩
  tower5 := ⟨"96_well", 0, [10, 11, 12], true⟩
  lidnest1 := ⟨"96_well", 0⟩
  lidnest2 := ⟨"96_well", 0⟩
  exchange := ⟨"96_well", 0, [10, 11, 2], false⟩

/-- The two jog axes actually used by the driver. -/
inductive Axis
  | Y | Z
deriving DecidableEq, Repr

/-- One primitive call issued to the device during a choreography. -/
inductive Prim
  | openG
  | closeG
  | setSpeed (n : Int)
  | jog (a : Axis) (dist : Int)
  | move (p : Pos4)
  | checkLoop
deriving DecidableEq, Repr

/-- The move primitive as the driver issues it: the literal Z of 23.5188 with
R, P, Y taken from the location. -/
def mv (p : Pos4) : Prim :=
  .move ⟨235188, p.R, p.Y, p.P⟩

/-- Result of running one choreography: the primitives issued in order, the
labware state when control returned (or when the exception was raised), and
the key of the failing lookup when the Python code raises. -/
structure Outcome where
  trace : List Prim
  lab : Labware
  err : Option String
deriving DecidableEq, Repr

/-! ## Transport layer: send_command -/

/-- One iteration of the send_command read loop. Each list entry is one read
attempt: some s is a successful read decoding to s, none is a read that
raises (timeout); an exhausted list likewise stands for a read that would
time out. The loop keeps reading until the single message just read equals
the command, appending every read to the buffer. -/
def send_command_loop (cmd : String) : List (Option String) → String → String
  | [], buf => buf
  | none :: _, buf => buf
  | some s :: rest, buf =>
    let buf2 := buf ++ "Read: " ++ s
    if s = cmd then buf2 else send_command_loop cmd rest buf2

/-- send_command: write the command, then accumulate reads; returns the
response buffer (errors are swallowed, never escalated). -/
def send_command (cmd : String) (reads : List (Option String)) : String :=
  send_command_loop cmd reads ("Write: " ++ cmd)

/-- The reads actually consumed by send_command: every read up to and
including the first one equal to the command, stopping early at the first
failing read. -/
def reads_consumed (cmd : String) : List (Option String) → List String
  | [] => []
  | none :: _ => []
  | some s :: rest => if s = cmd then [s] else s :: reads_consumed cmd rest

/-- Modelled from the spec: the read loop as the specification words it,
terminating when the accumulated text of the reads equals the literal
command just sent (the code instead compares only the most recent read).
Used solely to compare the specification sentence with send_command. -/
def send_command_specRead (cmd : String) : List (Option String) → String → String → String
  | [], _, buf => buf
  | none :: _, _, buf => buf
  | some s :: rest, acc, buf =>
    let acc2 := acc ++ s
    let buf2 := buf ++ "Read: " ++ s
    if acc2 = cmd then buf2 else send_command_specRead cmd rest acc2 buf2

/-- Modelled from the spec: send with the accumulated-text termination
condition of the specification. -/
def send_command_specModel (cmd : String) (reads : List (Option String)) : String :=
  send_command_specRead cmd reads "" ("Write: " ++ cmd)

/-! ## Transport layer: get_error -/

/-- Python regex word character, restricted to ASCII as used here. -/
def isWordChar (c : Char) : Bool := c.isAlphanum || c = '_'

/-- The characters a Python regex dot can consume: everything up to the next
newline. -/
def lineSpan (cs : List Char) : List Char := cs.takeWhile (fun c => c ≠ '\n')

/-- Drop the trailing non-word characters: what remains is what the greedy
group dot-star-w captures when anchored at the start of cs. -/
def rstripNonWord (cs : List Char) : List Char :=
  (cs.reverse.dropWhile (fun c => !(isWordChar c))).reverse

/-- Try to match the get_error regex (four digit groups then a greedy
dot-star-w group) at the head of the list; returns group 5 on success. -/
def digitErrMatch : List Char → Option (List Char)
  | a :: b :: c :: d :: rest =>
    if a.isDigit && b.isDigit && c.isDigit && d.isDigit then
      let g5 := rstripNonWord (lineSpan rest)
      if g5.isEmpty then none else some g5
    else none
  | _ => none

/-- re.search for the get_error regex: first position where it matches. -/
def searchDigits : List Char → Option (List Char)
  | [] => none
  | c :: rest =>
    match digitErrMatch (c :: rest) with
    | some g => some g
    | none => searchDigits rest

/-- get_error: given the response buffer and the current stored ERROR text,
returns the new ERROR text. Mirrors the source: an empty buffer returns
immediately; the regex is searched over the whole buffer (the line computed
from rfind is discarded by the source before use); characters 5 to 8 of
group 5 are compared with the string 0000; a failed match raises inside the
try block and is swallowed. -/
def get_error (response_buffer : String) (current : String) : String :=
  if response_buffer = "" then current
  else
    match searchDigits response_buffer.toList with
    | none => current
    | some g5 =>
      if String.mk ((g5.drop 5).take 4) = "0000" then current
      else "ERROR: " ++ String.mk g5

/-! ## Completion poller: check_complete -/

/-- Is there a word character before the next newline? This is exactly when
the greedy group of the status regex can match starting here. -/
def anyWordInLine (tail : List Char) : Bool :=
  (tail.takeWhile (fun c => c ≠ '\n')).any isWordChar

/-- Movement-state flag of DeviceState. -/
inductive MState
  | ready | busy
deriving DecidableEq, Repr

/-- Try to match the check_complete regex (literal 0000, a space, then a
greedy dot-star-w group) at the head of the list; returns group 1. -/
def statusHereG (l : List Char) : Option (List Char) :=
  match l with
  | a :: b :: c :: d :: e :: tail =>
    if (a = '0' ∧ b = '0' ∧ c = '0' ∧ d = '0' ∧ e = ' ') ∧ anyWordInLine tail = true then
      some (rstripNonWord (lineSpan tail))
    else none
  | _ => none

/-- re.search for the check_complete status regex. -/
def statusSearchG : List Char → Option (List Char)
  | [] => none
  | c :: rest =>
    match statusHereG (c :: rest) with
    | some g => some g
    | none => statusSearchG rest

/-- One completion-poll step applied to the text the status query returned:
on a regex match, store the status text, set READY and report complete; on
a failed match the subscript raises, the handler sets BUSY and reports not
complete. -/
def check_complete (out_msg : String) : Bool × MState × Option String :=
  match statusSearchG out_msg.toList with
  | some g => (true, .ready, some (String.mk g))
  | none => (false, .busy, none)

/-- The status pattern as a proposition: somewhere in the text, the literal
0000-space is followed by a word character with no newline in between. -/
def StatusFound (cs : List Char) : Prop :=
  ∃ pre mid c post, cs = pre ++ '0' :: '0' :: '0' :: '0' :: ' ' :: (mid ++ c :: post)
    ∧ (∀ x ∈ mid, x ≠ '\n') ∧ isWordChar c = true

/-! ## Inventory guard queries -/

/-- check_for_lid: first lid nest holding a lid of the exchange plate type
(none models the fall-through returning Python None). -/
def check_for_lid (lw : Labware) : Option NestName :=
  if lw.lidnest1.howmany ≥ 1 ∧ lw.lidnest1.type = lw.exchange.type then some .n1
  else if lw.lidnest2.howmany ≥ 1 ∧ lw.lidnest2.type = lw.exchange.type then some .n2
  else none

/-- check_for_empty_nest: first lid nest with zero occupancy (none models the
fall-through returning Python None). -/
def check_for_empty_nest (lw : Labware) : Option NestName :=
  if lw.lidnest1.howmany = 0 then some .n1
  else if lw.lidnest2.howmany = 0 then some .n2
  else none

/-- check_stack: room for another plate in the tower; the comparison of
remaining height against the fixed -50 threshold is scaled by ten
thousand like every other coordinate. none models the KeyError when the
tower plate type is not in the catalog. -/
def check_stack (lw : Labware) (t : TowerName) : Option Bool :=
  let tower_z_height : Int := -500000
  let tower_z_bottom : Int := -4218625
  match plate_info (lw.tower t).type with
  | none => none
  | some pinfo =>
    let total_height := pinfo.height * (lw.tower t).howmany
    let remaining := total_height + tower_z_bottom
    some (decide (remaining < tower_z_height))

/-! ## Choreography operations -/

/-- remove_lid: strips the lid from the plate on the exchange. Follows the
source line by line: speed and gripper-open and a move above the exchange
happen before the lid guard; on the guard failing the function just returns;
otherwise the lid is gripped, and either trashed or placed in the nest
check_for_empty_nest returned - when that is Python None, indexing labware
with it raises KeyError (err is the offending key None). -/
def remove_lid (trashFlag : Bool) (lw : Labware) : Outcome :=
  let t0 : List Prim := [.setSpeed 100, .openG, mv exchangePos, .checkLoop]
  if lw.exchange.has_lid = false then
    ⟨t0, lw, none⟩
  else
    match plate_info lw.exchange.type with
    | none => ⟨t0 ++ [.jog .Z (-380), .setSpeed 7], lw, some ("plate_info:" ++ lw.exchange.type)⟩
    | some pinfo =>
      let t1 := t0 ++ [.jog .Z (-380), .setSpeed 7, .jog .Z pinfo.grab_lid_exchange, .closeG,
                       .setSpeed 100, .jog .Z 1000, .checkLoop]
      if trashFlag then
        ⟨t1 ++ [mv trashPos, .checkLoop, .jog .Z (-400), .openG, .jog .Z 1000,
                mv neutralPos, .checkLoop],
         lw.setExchangeLid false, none⟩
      else
        match check_for_empty_nest lw with
        | none => ⟨t1, lw, some "None"⟩
        | some n =>
          ⟨t1 ++ [mv (nestPos n), .checkLoop, .jog .Z (-400), .openG, .jog .Z 1000, .checkLoop,
                  mv neutralPos, .checkLoop],
           (lw.updateNest n (fun nd =>
              { nd with howmany := nd.howmany + 1, type := lw.exchange.type })).setExchangeLid
             false, none⟩

/-- replace_lid: fetches a lid from the matching nest and puts it on the
exchange plate. The source issues speed and gripper-open and calls
check_for_lid before the already-has-lid guard; when no nest matches and
the guard passes, indexing labware with Python None raises KeyError. -/
def replace_lid (lw : Labware) : Outcome :=
  let t0 : List Prim := [.setSpeed 100, .openG]
  let nestOpt := check_for_lid lw
  if lw.exchange.has_lid = true then
    ⟨t0, lw, none⟩
  else
    match nestOpt with
    | none => ⟨t0, lw, some "None"⟩
    | some n =>
      let t1 := t0 ++ [mv (nestPos n), .checkLoop, .closeG, .jog .Z (-380), .setSpeed 7,
                       .jog .Z (-1000), .jog .Z 10, .openG]
      match plate_info lw.exchange.type with
      | none => ⟨t1, lw, some ("plate_info:" ++ lw.exchange.type)⟩
      | some pinfo =>
        ⟨t1 ++ [.jog .Z pinfo.grab_lid_nest, .closeG, .setSpeed 100, .jog .Z 1000, .checkLoop,
                mv exchangePos, .checkLoop, .jog .Z (-400), .openG, .jog .Z 1000, .checkLoop,
                mv neutralPos, .checkLoop],
         (lw.updateNest n (fun nd => { nd with howmany := nd.howmany - 1 })).setExchangeLid true,
         none⟩

/-- get_plate: the tower-to-exchange choreography. The exchange slot is
updated (occupancy, type, size, lid flag copied from the tower) right after
the plate is released there; then, when lid removal is not requested, the
exchange lid flag is overwritten with true; finally the arm moves back to
neutral and the tower occupancy is decremented. -/
def get_plate (loc : TowerName) (removeLid trashFlag : Bool) (lw : Labware) : Outcome :=
  let tw := lw.tower loc
  let preTrace : List Prim :=
    [.openG, .setSpeed 10, .jog .Y (-1000), .jog .Z 1000, .setSpeed 12, mv neutralPos, .checkLoop,
     .setSpeed 100, mv (towerPos loc), .checkLoop,
     .closeG, .setSpeed 15, .jog .Z (-1000), .jog .Z 10, .openG]
  match plate_info tw.type with
  | none => ⟨preTrace, lw, some ("plate_info:" ++ tw.type)⟩
  | some pinfo =>
    let t2 := preTrace ++
      [.jog .Z pinfo.grab_tower, .closeG, .setSpeed 100, .jog .Z 1000,
       mv exchangePos, .jog .Z (-380), .setSpeed 5, .jog .Z (-30), .openG, .setSpeed 100,
       .jog .Z 1000]
    let lw2 := { lw with exchange := { lw.exchange with
                   howmany := lw.exchange.howmany + 1,
                   type := tw.type, size := tw.size, has_lid := tw.has_lid } }
    let after : Outcome :=
      if removeLid then
        let o := remove_lid trashFlag lw2
        ⟨t2 ++ o.trace, o.lab, o.err⟩
      else
        ⟨t2, lw2.setExchangeLid true, none⟩
    match after.err with
    | some e => ⟨after.trace, after.lab, some e⟩
    | none =>
      ⟨after.trace ++ [mv neutralPos],
       after.lab.updateTower loc (fun td => { td with howmany := td.howmany - 1 }), none⟩

/-- plate_to_stack: the exchange-to-tower choreography. The plate type is
read before the optional replace_lid call; no capacity check is performed;
at the end exchange occupancy is decremented and the tower incremented. -/
def plate_to_stack (tower : TowerName) (addLid : Bool) (lw : Labware) : Outcome :=
  let t0 : List Prim := [.openG, .setSpeed 10, .jog .Y (-1000), .jog .Z 1000, .setSpeed 12,
                         mv neutralPos, .checkLoop]
  let ptype := lw.exchange.type
  let afterLid : Outcome :=
    if addLid then
      let o := replace_lid lw
      ⟨t0 ++ o.trace, o.lab, o.err⟩
    else ⟨t0, lw, none⟩
  match afterLid.err with
  | some e => ⟨afterLid.trace, afterLid.lab, some e⟩
  | none =>
    let lw1 := afterLid.lab
    let t1 := afterLid.trace ++ [.openG, mv exchangePos, .checkLoop, .setSpeed 100, .jog .Z (-380)]
    match plate_info ptype with
    | none => ⟨t1, lw1, some ("plate_info:" ++ ptype)⟩
    | some pinfo =>
      ⟨t1 ++ [.jog .Z pinfo.grab_exchange, .closeG, .setSpeed 100, .jog .Z 1000, .checkLoop,
              mv (towerPos tower), .checkLoop, .setSpeed 10, .jog .Z (-1000), .openG,
              .setSpeed 100, .jog .Z 1000, .checkLoop, mv neutralPos, .checkLoop],
       ({ lw1 with exchange := { lw1.exchange with howmany := lw1.exchange.howmany - 1 }
        }).updateTower tower (fun td => { td with howmany := td.howmany + 1 }),
       none⟩

/-- lidnest_to_trash: discard the lid sitting in the given nest; a no-op
past the initial retreat to neutral when the nest is empty. -/
def lidnest_to_trash (n : NestName) (lw : Labware) : Outcome :=
  let t0 : List Prim := [.openG, .setSpeed 10, .jog .Y (-1000), .jog .Z 1000, .setSpeed 12,
                         mv neutralPos, .checkLoop]
  let nd := lw.nest n
  if nd.howmany ≥ 1 then
    let t1 := t0 ++ [.setSpeed 100, .closeG, mv (nestPos n), .checkLoop,
                     .jog .Z (-380), .setSpeed 7, .jog .Z (-1000), .jog .Z 10, .openG]
    match plate_info nd.type with
    | none => ⟨t1, lw, some ("plate_info:" ++ nd.type)⟩
    | some pinfo =>
      ⟨t1 ++ [.jog .Z pinfo.grab_lid_nest, .closeG, .setSpeed 100, .jog .Z 1000, .checkLoop,
              mv trashPos, .checkLoop, .jog .Z (-1000), .openG, .jog .Z 1000, .checkLoop,
              mv neutralPos, .checkLoop],
       lw.updateNest n (fun x => { x with howmany := x.howmany - 1 }), none⟩
  else ⟨t0, lw, none⟩

/-- plate_to_trash: discard the plate on the exchange. When a plate is
present, the source looks up the key grab_plate_exchange in the plate-type
record; no plate type has that key, so the lookup always raises KeyError
before any further motion or any labware update. -/
def plate_to_trash (addLid : Bool) (lw : Labware) : Outcome :=
  let t0 : List Prim := [.openG, .setSpeed 10, .jog .Y (-1000), .jog .Z 1000, .setSpeed 12,
                         mv neutralPos, .checkLoop]
  if lw.exchange.howmany ≥ 1 then
    let afterLid : Outcome :=
      if addLid then
        let o := replace_lid lw
        ⟨t0 ++ o.trace, o.lab, o.err⟩
      else ⟨t0, lw, none⟩
    match afterLid.err with
    | some e => ⟨afterLid.trace, afterLid.lab, some e⟩
    | none =>
      let lw1 := afterLid.lab
      let t1 := afterLid.trace ++ [.setSpeed 100, .openG, mv exchangePos, .checkLoop,
                                   .jog .Z (-380), .setSpeed 7]
      match plate_info lw1.exchange.type with
      | none => ⟨t1, lw1, some ("plate_info:" ++ lw1.exchange.type)⟩
      | some _ => ⟨t1, lw1, some "grab_plate_exchange"⟩
  else ⟨t0, lw, none⟩

/-- limp: the command string sent by limp; the boolean is negated and there
is no terminating carriage-return-newline. -/
def limpCmd (b : Bool) : String :=
  "LIMP " ++ (if b then "FALSE" else "TRUE")

/-- Every fixed command string built elsewhere in the driver. -/
def fixedCmds : List String :=
  ["GETPOS\r\n", "STATUS\r\n", "VERSION\r\n", "RESET\r\n", "GETCONFIG\r\n",
   "GETGRIPPERLENGTH\r\n", "GETCOLLAPSEDISTANCE\r\n", "GETSTEPSPERUNIT\r\n",
   "HOME\r\n", "OPEN\r\n", "CLOSE\r\n", "GETGRIPPERISOPEN\r\n",
   "GETGRIPPERISCLOSED\r\n", "GETPLATEPRESENT\r\n", "LISTPOINTS\r\n"]

/-- The SETSPEED command string. -/
def setSpeedCmd (n : Int) : String := "SETSPEED " ++ toString n ++ "\r\n"

/-- The JOG command string. -/
def jogCmd (axis : String) (d : Int) : String := "JOG " ++ axis ++ "," ++ toString d ++ "\r\n"

/-- The MOVE command string (the R value as formatted by Python). -/
def moveCmd (r : String) : String := "MOVE R:" ++ r ++ "\r\n"

/-- The LOADPOINT command string. -/
def loadpointCmd (r z p y : String) : String :=
  "LOADPOINT R:" ++ r ++ ", Z:" ++ z ++ ", P:" ++ p ++ ", Y:" ++ y ++ ", R:" ++ r ++ "\r\n"

/-- The DELETEPOINT command string. -/
def deletepointCmd (r : String) : String := "DELETEPOINT R:" ++ r ++ "\r\n"

/-- Does the string end in a carriage-return-newline pair? -/
def crlfEnd (s : String) : Bool :=
  match s.data.reverse with
  | a :: b :: _ => a == '\n' && b == '\r'
  | _ => false

/-! ## Operation sequences and occupancy accounting -/

/-- One public inventory-moving operation, as named by the specification. -/
inductive Op
  | getPlate (t : TowerName) (removeLid trashFlag : Bool)
  | plateToStack (t : TowerName) (addLid : Bool)
  | plateToTrash (addLid : Bool)
deriving DecidableEq, Repr

/-- Run one operation. -/
def runOp : Op → Labware → Outcome
  | .getPlate t rl tr, lw => get_plate t rl tr lw
  | .plateToStack t al, lw => plate_to_stack t al lw
  | .plateToTrash al, lw => plate_to_trash al lw

/-- Run a sequence of operations, stopping at the first raised exception
(the labware is left as it was at the raise, like the Python fields). -/
def runSeq : List Op → Labware → Labware
  | [], lw => lw
  | o :: rest, lw =>
    match (runOp o lw).err with
    | some _ => (runOp o lw).lab
    | none => runSeq rest (runOp o lw).lab

/-- An operation that involves no lid handling. -/
def lidFree : Op → Prop
  | .getPlate _ rl _ => rl = false
  | .plateToStack _ al => al = false
  | .plateToTrash al => al = false

instance : DecidablePred lidFree := by
  intro o
  cases o <;> simp only [lidFree] <;> infer_instance

/-- Sum of the occupancy counts over all tracked slots. -/
def totalOcc (lw : Labware) : Int :=
  lw.tower1.howmany + lw.tower2.howmany + lw.tower3.howmany + lw.tower4.howmany +
  lw.tower5.howmany + lw.lidnest1.howmany + lw.lidnest2.howmany + lw.exchange.howmany

/-! ## Trace analysis for the neutral post-condition -/

/-- Is the primitive a motion primitive (an arm move or jog)? -/
def isMotion : Prim → Bool
  | .move _ => true
  | .jog _ _ => true
  | _ => false

/-- The last motion primitive of a trace, if any. -/
def lastMotion (tr : List Prim) : Option Prim :=
  tr.reverse.find? isMotion

/-- The move the driver issues to return to neutral. -/
def neutralMove : Prim := mv neutralPos

/-- The operation finished with the arm commanded to the neutral slot. -/
def endsAtNeutral (o : Outcome) : Prop :=
  lastMotion o.trace = some neutralMove

/-! ## Concrete states for witnesses and counterexamples -/

/-- Tower 1 holding one lid-less 96-well plate. -/
def stLidlessTower : Labware :=
  { initial_labware with tower1 := ⟨"96_well", 1, [10, 11, 12], false⟩ }

/-- Tower 1 holding one lidded 96-well plate, both nests empty. -/
def stLiddedTower : Labware :=
  { initial_labware with tower1 := ⟨"96_well", 1, [10, 11, 12], true⟩ }

/-- Exchange occupied by a lidded plate. -/
def stExchangeLidded : Labware :=
  { initial_labware with exchange := ⟨"96_well", 1, [10, 11, 2], true⟩ }

/-- Exchange occupied by a lidded plate with both lid nests full. -/
def stNestsFull : Labware :=
  { initial_labware with
    lidnest1 := ⟨"96_well", 1⟩, lidnest2 := ⟨"96_well", 1⟩,
    exchange := ⟨"96_well", 1, [10, 11, 2], true⟩ }

/-- Tower 2 stacked beyond capacity (23 plates of height 16.2562 exceed the
clearance), a plate waiting on the exchange. -/
def stTowerFull : Labware :=
  { initial_labware with
    tower2 := ⟨"96_well", 23, [10, 11, 12], true⟩,
    exchange := ⟨"96_well", 1, [10, 11, 2], false⟩ }

/-! ## Helper lemmas -/

theorem crlfEnd_append (s : String) : crlfEnd (s ++ "\r\n") = true := by
  have h : (s ++ "\r\n").data = s.data ++ ['\r', '\n'] := by
    rw [String.data_append]
  unfold crlfEnd
  rw [h]
  have h2 : (s.data ++ ['\r', '\n']).reverse = '\n' :: '\r' :: s.data.reverse := by
    simp [List.reverse_append]
  rw [h2]
  rfl

theorem Labware.tower_updateTower (lw : Labware) (t : TowerName) (f : TowerData → TowerData) :
    (lw.updateTower t f).tower t = f (lw.tower t) := by
  cases t <;> rfl

theorem Labware.exchange_updateTower (lw : Labware) (t : TowerName) (f : TowerData → TowerData) :
    (lw.updateTower t f).exchange = lw.exchange := by
  cases t <;> rfl

theorem Labware.tower_withExchange (lw : Labware) (e : ExchangeData) (t : TowerName) :
    ({ lw with exchange := e } : Labware).tower t = lw.tower t := by
  cases t <;> rfl

/-! ## C10: the limp command -/

/-- Claim C10: limp sends the command with the negated boolean, limp true
sends LIMP FALSE and limp false sends LIMP TRUE, and unlike every other
command string built by the driver it is not terminated with a
carriage-return-newline pair. -/
theorem sciclops_C10_limp :
    limpCmd true = "LIMP FALSE" ∧ limpCmd false = "LIMP TRUE" ∧
    crlfEnd (limpCmd true) = false ∧ crlfEnd (limpCmd false) = false ∧
    fixedCmds.all crlfEnd = true ∧
    (∀ n : Int, crlfEnd (setSpeedCmd n) = true) ∧
    (∀ (ax : String) (d : Int), crlfEnd (jogCmd ax d) = true) ∧
    (∀ r : String, crlfEnd (moveCmd r) = true) ∧
    (∀ r z p y : String, crlfEnd (loadpointCmd r z p y) = true) ∧
    (∀ r : String, crlfEnd (deletepointCmd r) = true) := by
  refine ⟨by decide, by decide, by decide, by decide, by decide, ?_, ?_, ?_, ?_, ?_⟩
  · intro n; exact crlfEnd_append _
  · intro ax d; exact crlfEnd_append _
  · intro r; exact crlfEnd_append _
  · intro r z p y; exact crlfEnd_append _
  · intro r; exact crlfEnd_append _

/-! ## C6: the send loop -/

theorem send_command_loop_eq (cmd : String) :
    ∀ (reads : List (Option String)) (buf : String),
      send_command_loop cmd reads buf =
        (reads_consumed cmd reads).foldl (fun b s => b ++ "Read: " ++ s) buf := by
  intro reads
  induction reads with
  | nil => intro buf; rfl
  | cons hd tl ih =>
    intro buf
    cases hd with
    | none => rfl
    | some s =>
      by_cases h : s = cmd
      · simp [send_command_loop, reads_consumed, h]
      · simp only [send_command_loop, reads_consumed, if_neg h]
        exact ih _

/-- Claim C6 (amended): send writes the command then keeps reading,
appending every read to the buffer, until the single most recent read
equals the literal command or a read fails or times out, in which case it
stops and returns the partial buffer accumulated so far without escalating
any error: the result is always the write marker plus exactly the consumed
reads. -/
theorem sciclops_C6_amended (cmd : String) (reads : List (Option String)) :
    send_command cmd reads =
      (reads_consumed cmd reads).foldl (fun b s => b ++ "Read: " ++ s) ("Write: " ++ cmd) :=
  send_command_loop_eq cmd reads _

/-- Claim C6 counterexample: with command AB and reads A, B, C, the
accumulated text of the reads equals the command after the second read, so
the specification wording stops there, but the code keeps reading because
no single read equals the command, consuming the third read as well. -/
theorem sciclops_C6_counterexample :
    send_command "AB" [some "A", some "B", some "C"] = "Write: ABRead: ARead: BRead: C" ∧
    send_command_specModel "AB" [some "A", some "B", some "C"] = "Write: ABRead: ARead: B" ∧
    decide (send_command "AB" [some "A", some "B", some "C"] =
      send_command_specModel "AB" [some "A", some "B", some "C"]) = false := by
  exact ⟨by decide, by decide, by decide⟩

/-! ## C3: replace_lid on a plate that already has a lid -/

/-- Claim C3 counterexample: with the exchange lid flag already true,
replace_lid still issues two primitives, the speed command and the gripper
open, before reaching its guard, so it does not perform zero motion
primitives. -/
theorem sciclops_C3_counterexample :
    (replace_lid stExchangeLidded).trace = [Prim.setSpeed 100, Prim.openG] ∧
    decide ((replace_lid stExchangeLidded).trace = ([] : List Prim)) = false ∧
    stExchangeLidded.exchange.has_lid = true := by
  exact ⟨by decide, by decide, by decide⟩

/-- Claim C3 (amended): when the exchange lid flag is already true,
replace_lid issues exactly the unconditional preamble, one speed command
and one gripper open, and then stops at the guard: no jog and no arm move
is sent, the inventory state is returned unchanged, no exception is
raised, and the condition is reported only as a logged message rather
than a typed InventoryViolation result. -/
theorem sciclops_C3_amended (lw : Labware) (h : lw.exchange.has_lid = true) :
    replace_lid lw = ⟨[Prim.setSpeed 100, Prim.openG], lw, none⟩ := by
  simp [replace_lid, h]

/-- Witness for C3 at a concrete lidded-exchange state. -/
theorem sciclops_C3_witness :
    stExchangeLidded.exchange.has_lid = true ∧
    replace_lid stExchangeLidded = ⟨[Prim.setSpeed 100, Prim.openG], stExchangeLidded, none⟩ :=
  ⟨by decide, sciclops_C3_amended stExchangeLidded (by decide)⟩

/-! ## C1: get_plate effect on the inventory -/

/-- Claim C1 counterexample: a tower holding one lid-less plate; after
get_plate with no lid removal requested, the exchange lid-present flag is
true although the source slot's prior flag was false, so the flag is not
copied from the source. -/
theorem sciclops_C1_counterexample :
    stLidlessTower.tower1.has_lid = false ∧
    1 ≤ stLidlessTower.tower1.howmany ∧
    (get_plate .t1 false false stLidlessTower).lab.exchange.has_lid = true ∧
    decide ((get_plate .t1 false false stLidlessTower).lab.exchange.has_lid =
      stLidlessTower.tower1.has_lid) = false := by
  exact ⟨by decide, by decide, by decide, by decide⟩

/-- Claim C1 (amended): for every source tower with occupancy at least one
whose plate type is in the catalog, get_plate with no lid removal completes
without exception, decrements the source occupancy by one, increments the
exchange occupancy by one, and copies the source plate type and size to the
exchange; the exchange lid-present flag is set unconditionally to true,
which equals the source's prior flag exactly when that flag was true. -/
theorem sciclops_C1_amended (lw : Labware) (t : TowerName)
    (hocc : 1 ≤ (lw.tower t).howmany)
    (htype : (plate_info (lw.tower t).type).isSome = true) :
    (get_plate t false false lw).err = none ∧
    ((get_plate t false false lw).lab.tower t).howmany = (lw.tower t).howmany - 1 ∧
    (get_plate t false false lw).lab.exchange.howmany = lw.exchange.howmany + 1 ∧
    (get_plate t false false lw).lab.exchange.type = (lw.tower t).type ∧
    (get_plate t false false lw).lab.exchange.size = (lw.tower t).size ∧
    (get_plate t false false lw).lab.exchange.has_lid = true := by
  obtain ⟨pinfo, heq⟩ := Option.isSome_iff_exists.mp htype
  refine ⟨?_, ?_, ?_, ?_, ?_, ?_⟩ <;>
    simp [get_plate, heq, Labware.tower_updateTower, Labware.exchange_updateTower,
      Labware.setExchangeLid, Labware.tower_withExchange]

/-- Witness for C1 at a concrete lidded-tower state. -/
theorem sciclops_C1_witness :
    (1 ≤ (stLiddedTower.tower .t1).howmany ∧
      (plate_info (stLiddedTower.tower .t1).type).isSome = true) ∧
    ((get_plate .t1 false false stLiddedTower).err = none ∧
      ((get_plate .t1 false false stLiddedTower).lab.tower .t1).howmany =
        (stLiddedTower.tower .t1).howmany - 1 ∧
      (get_plate .t1 false false stLiddedTower).lab.exchange.howmany =
        stLiddedTower.exchange.howmany + 1 ∧
      (get_plate .t1 false false stLiddedTower).lab.exchange.type =
        (stLiddedTower.tower .t1).type ∧
      (get_plate .t1 false false stLiddedTower).lab.exchange.size =
        (stLiddedTower.tower .t1).size ∧
      (get_plate .t1 false false stLiddedTower).lab.exchange.has_lid = true) :=
  ⟨⟨by decide, by decide⟩, sciclops_C1_amended stLiddedTower .t1 (by decide) (by decide)⟩

/-! ## C4: remove_lid with both nests full -/

/-- Claim C4: with the exchange lid flag true and both lid nests occupied,
remove_lid with trash false prints the no-available-nest message but then
indexes the labware table with Python None and raises KeyError instead of
returning an InventoryViolation result; the inventory state, including the
exchange lid flag and both nests, is left exactly unchanged because the
exception fires before any update. -/
theorem sciclops_C4_keyerror :
    stNestsFull.exchange.has_lid = true ∧
    1 ≤ stNestsFull.lidnest1.howmany ∧ 1 ≤ stNestsFull.lidnest2.howmany ∧
    check_for_empty_nest stNestsFull = none ∧
    (remove_lid false stNestsFull).err = some "None" ∧
    (remove_lid false stNestsFull).lab = stNestsFull := by
  exact ⟨by decide, by decide, by decide, by decide, by decide, by decide⟩

/-! ## C5: plate_to_stack ignores the capacity check -/

/-- Claim C5: with tower 2 over capacity (check_stack reports no room),
plate_to_stack does not refuse: it completes without raising, decrements
the exchange occupancy and increments the tower occupancy anyway, because
the source never calls the stack-capacity guard. -/
theorem sciclops_C5_nocapacitycheck :
    check_stack stTowerFull .t2 = some false ∧
    (plate_to_stack .t2 false stTowerFull).err = none ∧
    (plate_to_stack .t2 false stTowerFull).lab.exchange.howmany =
      stTowerFull.exchange.howmany - 1 ∧
    ((plate_to_stack .t2 false stTowerFull).lab.tower .t2).howmany =
      (stTowerFull.tower .t2).howmany + 1 := by
  exact ⟨by decide, by decide, by decide, by decide⟩

/-! ## C7: get_error -/

/-- Claim C7: the code does not implement the claimed trailing-status-line
rule. On a buffer whose trailing status line is 0000 Success, the claim
says no error is recorded, but get_error sets the ERROR text (it compares
characters 5 to 8 of the text after the first four-digit run, not the code
itself, with 0000); and on a buffer with a genuine non-0000 trailing code,
what is recorded is only the free text after the digits, not that line. -/
theorem sciclops_C7_get_error :
    get_error "Write: STATUS\r\nRead: 0000 Success\r\n" "" = "ERROR:  Success" ∧
    decide (get_error "Write: STATUS\r\nRead: 0000 Success\r\n" "" = "") = false ∧
    get_error "Write: STATUS\r\nRead: 0071 Device fault\r\n" "" = "ERROR:  Device fault" := by
  exact ⟨by decide, by decide, by decide⟩

/-! ## C8: check_complete -/

theorem isWordChar_ne_newline {c : Char} (h : isWordChar c = true) : c ≠ '\n' := by
  intro hc
  subst hc
  exact absurd h (by decide)

theorem anyWordInLine_iff (tail : List Char) :
    anyWordInLine tail = true ↔
      ∃ mid c post, tail = mid ++ c :: post ∧ (∀ x ∈ mid, x ≠ '\n') ∧ isWordChar c = true := by
  induction tail with
  | nil =>
    constructor
    · intro h
      simp [anyWordInLine] at h
    · rintro ⟨mid, c, post, h, -, -⟩
      cases mid <;> simp at h
  | cons d t ih =>
    by_cases hd : d = '\n'
    · subst hd
      have lhs : anyWordInLine ('\n' :: t) = false := by
        simp [anyWordInLine, List.takeWhile_cons]
      rw [lhs]
      constructor
      · intro h; cases h
      · rintro ⟨mid, c, post, heq, hmid, hc⟩
        cases mid with
        | nil =>
          injection heq with h1 h2
          exact absurd h1.symm (isWordChar_ne_newline hc)
        | cons m ms =>
          injection heq with h1 h2
          exact absurd h1.symm (hmid m (List.mem_cons_self m ms))
    · have step : anyWordInLine (d :: t) = (isWordChar d || anyWordInLine t) := by
        simp [anyWordInLine, List.takeWhile_cons, hd]
      rw [step]
      constructor
      · intro h
        cases hw : isWordChar d with
        | true => exact ⟨[], d, t, rfl, by simp, hw⟩
        | false =>
          rw [hw, Bool.false_or] at h
          obtain ⟨mid, c, post, heq, hmid, hc⟩ := ih.mp h
          refine ⟨d :: mid, c, post, by rw [heq]; rfl, ?_, hc⟩
          intro x hx
          rcases List.mem_cons.mp hx with hx | hx
          · subst hx; exact hd
          · exact hmid x hx
      · rintro ⟨mid, c, post, heq, hmid, hc⟩
        cases mid with
        | nil =>
          injection heq with h1 h2
          subst h1
          simp [hc]
        | cons m ms =>
          injection heq with h1 h2
          have ht : anyWordInLine t = true :=
            ih.mpr ⟨ms, c, post, h2, fun x hx => hmid x (List.mem_cons_of_mem m hx), hc⟩
          simp [ht]

theorem statusHereG_isSome_iff (l : List Char) :
    (statusHereG l).isSome = true ↔
      ∃ tail, l = '0' :: '0' :: '0' :: '0' :: ' ' :: tail ∧ anyWordInLine tail = true := by
  rcases l with - | ⟨a, - | ⟨b, - | ⟨c, - | ⟨d, - | ⟨e, tail⟩⟩⟩⟩⟩ <;>
    try { constructor
          · intro h; simp [statusHereG] at h
          · rintro ⟨tail, h, -⟩; simp at h }
  constructor
  · intro h
    simp only [statusHereG] at h
    split at h
    case isTrue hcond =>
      obtain ⟨⟨ha, hb, hc, hd, he⟩, hw⟩ := hcond
      subst ha; subst hb; subst hc; subst hd; subst he
      exact ⟨tail, rfl, hw⟩
    case isFalse hcond => simp at h
  · rintro ⟨tail2, heq, hw⟩
    injection heq with h1 heq; subst h1
    injection heq with h2 heq; subst h2
    injection heq with h3 heq; subst h3
    injection heq with h4 heq; subst h4
    injection heq with h5 heq; subst h5
    subst heq
    simp [statusHereG, hw]

theorem statusSearchG_isSome_iff (cs : List Char) :
    (statusSearchG cs).isSome = true ↔ StatusFound cs := by
  induction cs with
  | nil =>
    constructor
    · intro h; simp [statusSearchG] at h
    · rintro ⟨pre, mid, c, post, h, -, -⟩
      cases pre <;> simp at h
  | cons x rest ih =>
    cases hm : statusHereG (x :: rest) with
    | some g =>
      have hx : (statusSearchG (x :: rest)).isSome = true := by
        simp [statusSearchG, hm]
      rw [hx]
      have hhere := (statusHereG_isSome_iff (x :: rest)).mp (by simp [hm])
      obtain ⟨tail, heq, hw⟩ := hhere
      obtain ⟨mid, c, post, htail, hmid, hc⟩ := (anyWordInLine_iff tail).mp hw
      have hfound : StatusFound (x :: rest) := by
        refine ⟨[], mid, c, post, ?_, hmid, hc⟩
        rw [heq, htail]
        rfl
      constructor
      · intro _; exact hfound
      · intro _; rfl
    | none =>
      have hx : statusSearchG (x :: rest) = statusSearchG rest := by
        simp [statusSearchG, hm]
      rw [hx, ih]
      constructor
      · rintro ⟨pre, mid, c, post, heq, hmid, hc⟩
        refine ⟨x :: pre, mid, c, post, ?_, hmid, hc⟩
        rw [heq]
        rfl
      · rintro ⟨pre, mid, c, post, heq, hmid, hc⟩
        cases pre with
        | nil =>
          exfalso
          have hsome : (statusHereG (x :: rest)).isSome = true := by
            refine (statusHereG_isSome_iff (x :: rest)).mpr ⟨mid ++ c :: post, ?_, ?_⟩
            · simpa using heq
            · exact (anyWordInLine_iff (mid ++ c :: post)).mpr ⟨mid, c, post, rfl, hmid, hc⟩
          rw [hm] at hsome
          simp at hsome
        | cons p ps =>
          injection heq with h1 h2
          exact ⟨ps, mid, c, post, h2, hmid, hc⟩

/-- Claim C8: one completion-poll step reports complete and sets the
movement-state flag to READY exactly when the response contains a status
line of the form 0000 followed by a space and some word text; otherwise it
reports not complete and sets the flag to BUSY. -/
theorem sciclops_C8_check_complete (resp : String) :
    (((check_complete resp).1 = true ∧ (check_complete resp).2.1 = MState.ready)
      ↔ StatusFound resp.toList) ∧
    (((check_complete resp).1 = false ∧ (check_complete resp).2.1 = MState.busy)
      ↔ ¬ StatusFound resp.toList) := by
  have key := statusSearchG_isSome_iff resp.toList
  unfold check_complete
  cases hm : statusSearchG resp.toList with
  | some g =>
    rw [hm] at key
    have kf : StatusFound resp.toList := key.mp rfl
    constructor
    · exact iff_of_true ⟨rfl, rfl⟩ kf
    · refine iff_of_false ?_ (fun hn => absurd kf hn)
      rintro ⟨h1, -⟩
      exact Bool.noConfusion (show true = false from h1)
  | none =>
    rw [hm] at key
    have kn : ¬ StatusFound resp.toList := fun hs => by
      have h2 := key.mpr hs
      exact Bool.noConfusion (show false = true from h2)
    constructor
    · refine iff_of_false ?_ kn
      rintro ⟨h1, -⟩
      exact Bool.noConfusion (show false = true from h1)
    · exact iff_of_true ⟨rfl, rfl⟩ kn

/-! ## C2: occupancy accounting -/

theorem totalOcc_updateTower_sub (lw : Labware) (t : TowerName) :
    totalOcc (lw.updateTower t (fun td => { td with howmany := td.howmany - 1 })) =
      totalOcc lw - 1 := by
  cases t <;> simp [totalOcc, Labware.updateTower] <;> ring

theorem totalOcc_updateTower_add (lw : Labware) (t : TowerName) :
    totalOcc (lw.updateTower t (fun td => { td with howmany := td.howmany + 1 })) =
      totalOcc lw + 1 := by
  cases t <;> simp [totalOcc, Labware.updateTower] <;> ring

theorem totalOcc_getPlate_noLid (lw : Labware) (t : TowerName) (tf : Bool) :
    totalOcc (get_plate t false tf lw).lab = totalOcc lw := by
  cases hpi : plate_info (lw.tower t).type with
  | none => simp [get_plate, hpi]
  | some pinfo =>
    simp only [get_plate, hpi, Bool.false_eq_true, if_false]
    rw [totalOcc_updateTower_sub]
    simp [totalOcc, Labware.setExchangeLid]
    ring

theorem totalOcc_plateToStack_noLid (lw : Labware) (t : TowerName) :
    totalOcc (plate_to_stack t false lw).lab = totalOcc lw := by
  cases hpi : plate_info lw.exchange.type with
  | none => simp [plate_to_stack, hpi]
  | some pinfo =>
    simp only [plate_to_stack, hpi, Bool.false_eq_true, if_false]
    rw [totalOcc_updateTower_add]
    simp [totalOcc]
    ring

theorem totalOcc_plateToTrash_noLid (lw : Labware) :
    totalOcc (plate_to_trash false lw).lab = totalOcc lw := by
  by_cases h : lw.exchange.howmany ≥ 1
  · cases hpi : plate_info lw.exchange.type with
    | none => simp [plate_to_trash, h, hpi]
    | some p2 => simp [plate_to_trash, h, hpi]
  · simp [plate_to_trash, h]

/-- Claim C2 (amended): over every finite sequence of get_plate without lid
removal, plate_to_stack without lid replacement, and plate_to_trash without
lid replacement, the sum of occupancy counts over all tracked slots is
exactly preserved. (Lid-handling variants move lids between the untracked
exchange lid flag and the tracked nest counts, changing the sum; and
plate_to_trash never completes a discard because its grab-offset lookup
always raises, so no trash operation ever lowers the sum either.) -/
theorem sciclops_C2_amended (ops : List Op) (lw : Labware)
    (hall : ∀ o ∈ ops, lidFree o) :
    totalOcc (runSeq ops lw) = totalOcc lw := by
  induction ops generalizing lw with
  | nil => rfl
  | cons o rest ih =>
    have ho : lidFree o := hall o (List.mem_cons_self o rest)
    have hrest : ∀ o2 ∈ rest, lidFree o2 := fun o2 h2 => hall o2 (List.mem_cons_of_mem o h2)
    have hstep : totalOcc (runOp o lw).lab = totalOcc lw := by
      cases o with
      | getPlate t rl tf =>
        have hrl : rl = false := ho
        subst hrl
        exact totalOcc_getPlate_noLid lw t tf
      | plateToStack t al =>
        have hal : al = false := ho
        subst hal
        exact totalOcc_plateToStack_noLid lw t
      | plateToTrash al =>
        have hal : al = false := ho
        subst hal
        exact totalOcc_plateToTrash_noLid lw
    simp only [runSeq]
    cases he : (runOp o lw).err with
    | some e =>
      dsimp only
      exact hstep
    | none =>
      dsimp only
      rw [ih _ hrest]
      exact hstep

/-- Claim C2 counterexample: from a tower holding one lidded plate and an
empty nest, the single non-trash call get_plate with lid removal to the
nest completes and raises the total occupancy from one to two: the lid
enters the tracked nest count, so a non-trash operation changes the sum. -/
theorem sciclops_C2_counterexample :
    totalOcc stLiddedTower = 1 ∧
    totalOcc (runSeq [Op.getPlate .t1 true false] stLiddedTower) = 2 ∧
    decide (totalOcc (runSeq [Op.getPlate .t1 true false] stLiddedTower) =
      totalOcc stLiddedTower) = false := by
  exact ⟨by decide, by decide, by decide⟩

/-- Witness for C2 on a concrete lid-free sequence. -/
theorem sciclops_C2_witness :
    (∀ o ∈ [Op.getPlate .t1 false false, Op.plateToStack .t2 false, Op.plateToTrash false],
      lidFree o) ∧
    totalOcc (runSeq [Op.getPlate .t1 false false, Op.plateToStack .t2 false,
      Op.plateToTrash false] stLiddedTower) = totalOcc stLiddedTower :=
  ⟨by decide, sciclops_C2_amended _ stLiddedTower (by decide)⟩

/-! ## C9: the neutral post-condition -/

theorem lastMotion_append (tr L : List Prim) (h : L.reverse.find? isMotion = some neutralMove) :
    lastMotion (tr ++ L) = some neutralMove := by
  unfold lastMotion
  rw [List.reverse_append, List.find?_append, h]
  rfl

theorem getPlate_neutral_or (lw : Labware) (t : TowerName) (rl tf : Bool) :
    endsAtNeutral (get_plate t rl tf lw) ∨ (get_plate t rl tf lw).err ≠ none := by
  unfold endsAtNeutral get_plate
  cases rl with
  | false =>
    simp only [Bool.false_eq_true, if_false]
    split
    · right; simp
    · try dsimp only
      left
      exact lastMotion_append _ _ rfl
  | true =>
    simp only [eq_self_iff_true, if_true]
    split
    · right; simp
    · try dsimp only
      split
      · right; simp
      · left
        exact lastMotion_append _ _ rfl

theorem removeLid_neutral_or (lw : Labware) (tf : Bool)
    (hlid : lw.exchange.has_lid = true) :
    endsAtNeutral (remove_lid tf lw) ∨ (remove_lid tf lw).err ≠ none := by
  unfold endsAtNeutral remove_lid
  rw [hlid]
  simp only [Bool.true_eq_false, if_false]
  split
  · right; simp
  · cases tf with
    | true =>
      simp only [eq_self_iff_true, if_true]
      left
      exact lastMotion_append _ _ rfl
    | false =>
      simp only [Bool.false_eq_true, if_false]
      split
      · right; simp
      · left
        exact lastMotion_append _ _ rfl

theorem replaceLid_neutral_or (lw : Labware)
    (hlid : lw.exchange.has_lid = false) :
    endsAtNeutral (replace_lid lw) ∨ (replace_lid lw).err ≠ none := by
  unfold endsAtNeutral replace_lid
  rw [hlid]
  simp only [Bool.false_eq_true, if_false]
  split
  · right; simp
  · split
    · right; simp
    · left
      exact lastMotion_append _ _ rfl

theorem plateToStack_neutral_or (lw : Labware) (t : TowerName) (al : Bool) :
    endsAtNeutral (plate_to_stack t al lw) ∨ (plate_to_stack t al lw).err ≠ none := by
  unfold endsAtNeutral plate_to_stack
  cases al with
  | false =>
    simp only [Bool.false_eq_true, if_false]
    try dsimp only
    split
    · right; simp
    · left
      exact lastMotion_append _ _ rfl
  | true =>
    simp only [eq_self_iff_true, if_true]
    try dsimp only
    split
    · right; simp
    · split
      · right; simp
      · left
        exact lastMotion_append _ _ rfl

theorem plateToTrash_neutral_or (lw : Labware) (al : Bool) :
    endsAtNeutral (plate_to_trash al lw) ∨ (plate_to_trash al lw).err ≠ none := by
  unfold endsAtNeutral plate_to_trash
  try dsimp only
  by_cases h : lw.exchange.howmany ≥ 1
  · rw [if_pos h]
    cases al with
    | false =>
      simp only [Bool.false_eq_true, if_false]
      try dsimp only
      split
      · right; simp
      · right; simp
    | true =>
      simp only [eq_self_iff_true, if_true]
      try dsimp only
      split
      · right; simp
      · split
        · right; simp
        · right; simp
  · rw [if_neg h]
    left
    rfl

theorem lidnestToTrash_neutral_or (lw : Labware) (n : NestName) :
    endsAtNeutral (lidnest_to_trash n lw) ∨ (lidnest_to_trash n lw).err ≠ none := by
  unfold endsAtNeutral lidnest_to_trash
  try dsimp only
  by_cases h : (lw.nest n).howmany ≥ 1
  · rw [if_pos h]
    split
    · right; simp
    · left
      exact lastMotion_append _ _ rfl
  · rw [if_neg h]
    left
    rfl

/-- Claim C9 (amended): get_plate, plate_to_stack, plate_to_trash and
lidnest_to_trash end with a move to the neutral slot on every path that
returns without an exception; remove_lid does so on every exception-free
path on which its lid-present guard holds, and replace_lid on every
exception-free path on which its lid-absent guard holds. (The two guard
failure exits do not: remove_lid without a lid ends with the arm over the
exchange, and replace_lid with a lid already present issues no move at
all.) -/
theorem sciclops_C9_amended :
    (∀ (lw : Labware) (t : TowerName) (rl tf : Bool), (get_plate t rl tf lw).err = none →
      endsAtNeutral (get_plate t rl tf lw)) ∧
    (∀ (lw : Labware) (tf : Bool), lw.exchange.has_lid = true →
      (remove_lid tf lw).err = none → endsAtNeutral (remove_lid tf lw)) ∧
    (∀ lw : Labware, lw.exchange.has_lid = false →
      (replace_lid lw).err = none → endsAtNeutral (replace_lid lw)) ∧
    (∀ (lw : Labware) (t : TowerName) (al : Bool), (plate_to_stack t al lw).err = none →
      endsAtNeutral (plate_to_stack t al lw)) ∧
    (∀ (lw : Labware) (al : Bool), (plate_to_trash al lw).err = none →
      endsAtNeutral (plate_to_trash al lw)) ∧
    (∀ (lw : Labware) (n : NestName), (lidnest_to_trash n lw).err = none →
      endsAtNeutral (lidnest_to_trash n lw)) := by
  refine ⟨?_, ?_, ?_, ?_, ?_, ?_⟩
  · intro lw t rl tf h
    exact (getPlate_neutral_or lw t rl tf).resolve_right (fun hne => hne h)
  · intro lw tf hlid h
    exact (removeLid_neutral_or lw tf hlid).resolve_right (fun hne => hne h)
  · intro lw hlid h
    exact (replaceLid_neutral_or lw hlid).resolve_right (fun hne => hne h)
  · intro lw t al h
    exact (plateToStack_neutral_or lw t al).resolve_right (fun hne => hne h)
  · intro lw al h
    exact (plateToTrash_neutral_or lw al).resolve_right (fun hne => hne h)
  · intro lw n h
    exact (lidnestToTrash_neutral_or lw n).resolve_right (fun hne => hne h)

/-- Claim C9 counterexample: remove_lid invoked with no lid on the exchange
plate completes normally (a legitimate precondition-failure exit), but the
final motion primitive it issued is the move above the exchange slot, whose
gripper-rotation coordinate differs from the neutral slot's, so the arm is
not re-commanded to neutral. -/
theorem sciclops_C9_counterexample :
    (remove_lid false initial_labware).err = none ∧
    lastMotion (remove_lid false initial_labware).trace = some (mv exchangePos) ∧
    mv exchangePos = Prim.move ⟨235188, 1092741, 327484, 1008955⟩ ∧
    neutralMove = Prim.move ⟨235188, 1092741, 327484, 982955⟩ ∧
    decide (lastMotion (remove_lid false initial_labware).trace = some neutralMove) = false := by
  exact ⟨by decide, by decide, by decide, by decide, by decide⟩

/-- Witness for C9: a lidded exchange plate trashed by remove_lid completes
and ends at neutral. -/
theorem sciclops_C9_witness :
    stExchangeLidded.exchange.has_lid = true ∧
    (remove_lid true stExchangeLidded).err = none ∧
    endsAtNeutral (remove_lid true stExchangeLidded) :=
  ⟨by decide, by decide,
    sciclops_C9_amended.2.1 stExchangeLidded true (by decide) (by decide)⟩
